import Mathlib

/-!
# A shallow embedding of `mock_openstack.py`

This file models the mock OpenStack HTTP service: a token-gated resource
store over six in-memory collections (users, tokens, images, volumes,
servers, attachments) which are written wholesale to a persistence
provider after every mutation.

Modelling conventions:
* JSON values are the inductive `Json` (a mutual inductive so that
  structural recursion and kernel evaluation work); Python `dict`s are
  association lists with unique keys (`JFields` for JSON objects,
  `List (String × α)` for the typed collections).
* Each HTTP handler becomes a pure function from its inputs and the
  current store state to a `Resp α`: a result (`Except ApiError α`),
  the next state, and the ordered list of `save_data` events performed
  (`persist_all` emits one event per collection).
* Nondeterministic inputs of the Python code (`uuid.uuid4()` fresh
  identifiers and `now_iso()` timestamps) are passed as explicit
  parameters.
* `HTTPException(400/401/404/409, ...)` becomes the `ApiError`
  inductive.  An uncaught Python `TypeError` (indexing `USERS` by an
  unhashable value in `get_token`) is modelled as `ApiError.Internal`.
-/

mutual

/-- JSON values, as delivered by the framework's body parsing.  Mutually
inductive with the element/field list types so that all functions on it
are structurally recursive. -/
inductive Json where
  | null
  | bool (b : Bool)
  | num (n : Int)
  | str (s : String)
  | arr (elems : JElems)
  | obj (fields : JFields)
deriving Repr

inductive JElems where
  | nil
  | cons (v : Json) (rest : JElems)
deriving Repr

inductive JFields where
  | nil
  | cons (key : String) (v : Json) (rest : JFields)
deriving Repr

end

mutual

/-- Structural equality of JSON values (Python `==` restricted to values
of the same shape; the cross-type coercions `True == 1` etc. are not
modelled — no claim exercises them). -/
def Json.beq : Json → Json → Bool
  | .null, .null => true
  | .bool a, .bool b => a == b
  | .num a, .num b => a == b
  | .str a, .str b => a == b
  | .arr xs, .arr ys => JElems.beq xs ys
  | .obj xs, .obj ys => JFields.beq xs ys
  | _, _ => false

def JElems.beq : JElems → JElems → Bool
  | .nil, .nil => true
  | .cons v xs, .cons v2 ys => Json.beq v v2 && JElems.beq xs ys
  | _, _ => false

def JFields.beq : JFields → JFields → Bool
  | .nil, .nil => true
  | .cons k v xs, .cons k2 v2 ys => k == k2 && Json.beq v v2 && JFields.beq xs ys
  | _, _ => false

end

mutual

theorem Json.beq_iff : ∀ a b : Json, Json.beq a b = true ↔ a = b
  | .null, .null => by simp [Json.beq]
  | .bool _, .bool _ => by simp [Json.beq]
  | .num _, .num _ => by simp [Json.beq]
  | .str _, .str _ => by simp [Json.beq]
  | .arr xs, .arr ys => by simp [Json.beq, JElems.beqElems_iff xs ys]
  | .obj xs, .obj ys => by simp [Json.beq, JFields.beqFields_iff xs ys]
  | .null, .bool _ => by simp [Json.beq]
  | .null, .num _ => by simp [Json.beq]
  | .null, .str _ => by simp [Json.beq]
  | .null, .arr _ => by simp [Json.beq]
  | .null, .obj _ => by simp [Json.beq]
  | .bool _, .null => by simp [Json.beq]
  | .bool _, .num _ => by simp [Json.beq]
  | .bool _, .str _ => by simp [Json.beq]
  | .bool _, .arr _ => by simp [Json.beq]
  | .bool _, .obj _ => by simp [Json.beq]
  | .num _, .null => by simp [Json.beq]
  | .num _, .bool _ => by simp [Json.beq]
  | .num _, .str _ => by simp [Json.beq]
  | .num _, .arr _ => by simp [Json.beq]
  | .num _, .obj _ => by simp [Json.beq]
  | .str _, .null => by simp [Json.beq]
  | .str _, .bool _ => by simp [Json.beq]
  | .str _, .num _ => by simp [Json.beq]
  | .str _, .arr _ => by simp [Json.beq]
  | .str _, .obj _ => by simp [Json.beq]
  | .arr _, .null => by simp [Json.beq]
  | .arr _, .bool _ => by simp [Json.beq]
  | .arr _, .num _ => by simp [Json.beq]
  | .arr _, .str _ => by simp [Json.beq]
  | .arr _, .obj _ => by simp [Json.beq]
  | .obj _, .null => by simp [Json.beq]
  | .obj _, .bool _ => by simp [Json.beq]
  | .obj _, .num _ => by simp [Json.beq]
  | .obj _, .str _ => by simp [Json.beq]
  | .obj _, .arr _ => by simp [Json.beq]

theorem JElems.beqElems_iff : ∀ xs ys : JElems, JElems.beq xs ys = true ↔ xs = ys
  | .nil, .nil => by simp [JElems.beq]
  | .nil, .cons _ _ => by simp [JElems.beq]
  | .cons _ _, .nil => by simp [JElems.beq]
  | .cons v xs, .cons v2 ys => by
    simp [JElems.beq, Json.beq_iff v v2, JElems.beqElems_iff xs ys]

theorem JFields.beqFields_iff : ∀ xs ys : JFields, JFields.beq xs ys = true ↔ xs = ys
  | .nil, .nil => by simp [JFields.beq]
  | .nil, .cons _ _ _ => by simp [JFields.beq]
  | .cons _ _ _, .nil => by simp [JFields.beq]
  | .cons k v xs, .cons k2 v2 ys => by
    simp [JFields.beq, Json.beq_iff v v2, JFields.beqFields_iff xs ys]
    tauto

end

instance : DecidableEq Json := fun a b =>
  decidable_of_iff (Json.beq a b = true) (Json.beq_iff a b)

instance : DecidableEq JElems := fun a b =>
  decidable_of_iff (JElems.beq a b = true) (JElems.beqElems_iff a b)

instance : DecidableEq JFields := fun a b =>
  decidable_of_iff (JFields.beq a b = true) (JFields.beqFields_iff a b)

/-- Python truthiness of a JSON value: `None`, `False`, `0`, `""`, `[]`
and `\x7b\x7d` are falsy, everything else truthy. -/
def Json.truthy : Json → Bool
  | .null => false
  | .bool b => b
  | .num n => n != 0
  | .str s => s ≠ ""
  | .arr .nil => false
  | .arr (.cons _ _) => true
  | .obj .nil => false
  | .obj (.cons _ _ _) => true

/-- `d.get(k)` on a JSON object's field list (Python `dict.get`): the
value at the first matching key, or `none`. -/
def JFields.get? : JFields → String → Option Json
  | .nil, _ => none
  | .cons k2 v rest, k => if k2 = k then some v else rest.get? k

/-- Python `data[k]` on an arbitrary JSON value: succeeds only when the
value is an object containing the key.  A missing key (`KeyError`) and a
non-object receiver (`TypeError`) are both `none` — in `get_token` both
are caught by the surrounding `try`. -/
def jIndex (j : Json) (k : String) : Option Json :=
  match j with
  | .obj fs => fs.get? k
  | _ => none

/-- `d.get(k)` / `k in d` on a typed collection dict modelled as an
association list with unique keys. -/
def dictFind? {α : Type} (d : List (String × α)) (k : String) : Option α :=
  match d with
  | [] => none
  | (k2, v) :: rest => if k2 = k then some v else dictFind? rest k

/-- `d[k] = v` on a dict: overwrite the existing binding if the key is
present, otherwise append the new binding (Python dicts keep insertion
order). -/
def dictInsert {α : Type} (d : List (String × α)) (k : String) (v : α) :
    List (String × α) :=
  match d with
  | [] => [(k, v)]
  | (k2, v2) :: rest =>
    if k2 = k then (k, v) :: rest else (k2, v2) :: dictInsert rest k v

/-- `d.pop(k, None)` on a dict: drop the binding for `k` if present. -/
def dictRemove {α : Type} (d : List (String × α)) (k : String) :
    List (String × α) :=
  d.filter (fun p => p.1 ≠ k)

-- ## The data model (section `Mock Data (Persistent)` of the source)

/-- A record of the `USERS` dict (keyed by username). -/
structure User where
  password : String
  id : String
  role : String
  domain : String
deriving Repr, DecidableEq

/-- A record of the `IMAGES` list. -/
structure Image where
  id : String
  name : String
  status : String
  size : Int
  visibility : String
  container_format : String
  disk_format : String
  created_at : String
deriving Repr, DecidableEq

/-- A record of the `VOLUMES` list. -/
structure Volume where
  id : String
  name : String
  size : Int
  status : String
deriving Repr, DecidableEq

/-- A record of the `SERVERS` list.  The seeded server has no
`image_id`/`flavor_id` keys, so both are optional. -/
structure Server where
  id : String
  name : String
  status : String
  image_id : Option String
  flavor_id : Option String
deriving Repr, DecidableEq

/-- A record of the `ATTACHMENTS` list.  `volumeId` and `device` come
straight out of the request body, so they are raw JSON values. -/
structure Attachment where
  id : String
  serverId : String
  volumeId : Json
  device : Json
  attached_at : String
deriving Repr, DecidableEq

-- ## Request schemas (pydantic models, with defaults already applied)

/-- `ImageIn` after validation: optional fields hold their defaults. -/
structure ImageIn where
  name : String
  size : Int
  visibility : String
  container_format : String
  disk_format : String
deriving Repr, DecidableEq

/-- `VolumeIn` after validation. -/
structure VolumeIn where
  name : String
  size : Int
deriving Repr, DecidableEq

/-- `ServerIn` after validation. -/
structure ServerIn where
  name : String
  image_id : String
  flavor_id : Option String
deriving Repr, DecidableEq

/-- The `HTTPException`s raised by the handlers, plus `Internal` for an
uncaught Python exception (surfaced by the framework as a 500). -/
inductive ApiError where
  | BadRequest
  | Unauthorized
  | NotFound
  | Conflict
  | Internal
deriving Repr, DecidableEq

/-- The HTTP status code of each error. -/
def ApiError.statusCode : ApiError → Nat
  | .BadRequest => 400
  | .Unauthorized => 401
  | .NotFound => 404
  | .Conflict => 409
  | .Internal => 500

/-- The full in-memory state of the store: the six module-level
collections. -/
structure St where
  users : List (String × User)
  tokens : List (String × String)
  images : List Image
  volumes : List Volume
  servers : List Server
  attachments : List Attachment
deriving Repr, DecidableEq

/-- One `save_data(name, data)` call: the collection name together with
the value written. -/
inductive SaveEvent where
  | users (d : List (String × User))
  | tokens (d : List (String × String))
  | images (d : List Image)
  | volumes (d : List Volume)
  | servers (d : List Server)
  | attachments (d : List Attachment)
deriving Repr, DecidableEq

/-- `persist_all()`: writes every collection, unconditionally, in the
source's order. -/
def persist_all (s : St) : List SaveEvent :=
  [.users s.users, .tokens s.tokens, .images s.images,
   .volumes s.volumes, .servers s.servers, .attachments s.attachments]

/-- The outcome of one handler invocation: the HTTP result, the store
state afterwards, and the `save_data` calls made (in order). -/
structure Resp (α : Type) where
  result : Except ApiError α
  state : St
  saves : List SaveEvent
deriving Repr

-- ## Handlers

/-- The `require_token` dependency: 401 when the header is absent or
empty (Python falsiness of `x_auth_token`) or the token is not a key of
`TOKENS`. -/
def require_token (x_auth_token : Option String)
    (tokens : List (String × String)) : Except ApiError Unit :=
  match x_auth_token with
  | none => .error .Unauthorized
  | some t =>
    if t = "" then .error .Unauthorized
    else if (dictFind? tokens t).isNone then .error .Unauthorized
    else .ok ()

/-- The user summary in a successful login response body. -/
structure UserSummary where
  id : String
  name : String
  role : String
deriving Repr, DecidableEq

/-- The fixed synthetic project descriptor in a login response body. -/
structure ProjectInfo where
  id : String
  name : String
deriving Repr, DecidableEq

/-- The body of a successful `POST /v3/auth/tokens` response, plus the
`X-Subject-Token` header set on it. -/
structure TokenResp where
  token : String
  user : UserSummary
  project : ProjectInfo
  xSubjectToken : String
deriving Repr, DecidableEq

/-- The `try`-block of `get_token`: extract
`data["auth"]["identity"]["password"]["user"]["name"]` and `...["password"]`.
Any `KeyError`/`TypeError` on the way makes the whole extraction fail. -/
def extractCreds (data : Json) : Option (Json × Json) := do
  let auth ← jIndex data "auth"
  let identity ← jIndex auth "identity"
  let pw ← jIndex identity "password"
  let user ← jIndex pw "user"
  let name ← jIndex user "name"
  let password ← jIndex user "password"
  pure (name, password)

/-- `POST /v3/auth/tokens`.  `newTok` stands for the `uuid.uuid4()`
token.  `USERS.get(username)` with an unhashable extracted name (a JSON
list or object) raises an uncaught `TypeError` in Python — modelled as
`Internal`; any other non-string name misses every (string) key. -/
def get_token (data : Json) (newTok : String) (s : St) : Resp TokenResp :=
  match extractCreds data with
  | none => ⟨.error .BadRequest, s, []⟩
  | some (nameJ, passwordJ) =>
    match nameJ with
    | .arr _ => ⟨.error .Internal, s, []⟩
    | .obj _ => ⟨.error .Internal, s, []⟩
    | .str username =>
      match dictFind? s.users username with
      | none => ⟨.error .Unauthorized, s, []⟩
      | some user =>
        if passwordJ = .str user.password then
          let s' := { s with tokens := dictInsert s.tokens newTok user.id }
          ⟨.ok { token := newTok,
                 user := ⟨user.id, username, user.role⟩,
                 project := ⟨"mock-project", "MockProject"⟩,
                 xSubjectToken := newTok },
           s', persist_all s'⟩
        else ⟨.error .Unauthorized, s, []⟩
    | _ => ⟨.error .Unauthorized, s, []⟩

/-- One element of the `GET /v2/images` response (the listing projects
each image and adds a `links` entry). -/
structure ImageEntry where
  id : String
  name : String
  status : String
  size : Int
  visibility : String
  container_format : String
  disk_format : String
  created_at : String
  links : List (String × String)
deriving Repr, DecidableEq

/-- The projection applied per image by `list_images`.  (The source's
`img.get(..., default)` fallbacks never fire here: every modelled image
carries all fields.) -/
def imageEntry (img : Image) : ImageEntry :=
  { id := img.id, name := img.name, status := img.status, size := img.size,
    visibility := img.visibility, container_format := img.container_format,
    disk_format := img.disk_format, created_at := img.created_at,
    links := [("self", "/v2/images/" ++ img.id)] }

/-- `GET /v2/images`. -/
def list_images (tok : Option String) (s : St) : Resp (List ImageEntry) :=
  match require_token tok s.tokens with
  | .error e => ⟨.error e, s, []⟩
  | .ok _ => ⟨.ok (s.images.map imageEntry), s, []⟩

/-- `POST /v2/images` (201).  `newId`/`now` stand for `uuid.uuid4()` and
`now_iso()`. -/
def create_image (tok : Option String) (img : ImageIn) (newId now : String)
    (s : St) : Resp Image :=
  match require_token tok s.tokens with
  | .error e => ⟨.error e, s, []⟩
  | .ok _ =>
    let new_img : Image :=
      { id := newId, name := img.name, status := "queued", size := img.size,
        visibility := img.visibility, container_format := img.container_format,
        disk_format := img.disk_format, created_at := now }
    let s' := { s with images := s.images ++ [new_img] }
    ⟨.ok new_img, s', persist_all s'⟩

/-- `GET /v2/images/\x7bimage_id\x7d`: linear scan by id. -/
def get_image (tok : Option String) (image_id : String) (s : St) :
    Resp Image :=
  match require_token tok s.tokens with
  | .error e => ⟨.error e, s, []⟩
  | .ok _ =>
    match s.images.find? (fun img => img.id == image_id) with
    | some img => ⟨.ok img, s, []⟩
    | none => ⟨.error .NotFound, s, []⟩

/-- `DELETE /v2/images/\x7bimage_id\x7d`: filter out the id, persist
(before the not-found check!), 404 when nothing was removed. -/
def delete_image (tok : Option String) (image_id : String) (s : St) :
    Resp String :=
  match require_token tok s.tokens with
  | .error e => ⟨.error e, s, []⟩
  | .ok _ =>
    let remaining := s.images.filter (fun img => img.id ≠ image_id)
    let s' := { s with images := remaining }
    if remaining.length = s.images.length then
      ⟨.error .NotFound, s', persist_all s'⟩
    else
      ⟨.ok "Deleted", s', persist_all s'⟩

/-- `GET /v3/volumes`. -/
def list_volumes (tok : Option String) (s : St) : Resp (List Volume) :=
  match require_token tok s.tokens with
  | .error e => ⟨.error e, s, []⟩
  | .ok _ => ⟨.ok s.volumes, s, []⟩

/-- `POST /v3/volumes` (201). -/
def create_volume (tok : Option String) (vol : VolumeIn) (newId : String)
    (s : St) : Resp Volume :=
  match require_token tok s.tokens with
  | .error e => ⟨.error e, s, []⟩
  | .ok _ =>
    let new_vol : Volume :=
      { id := newId, name := vol.name, size := vol.size, status := "available" }
    let s' := { s with volumes := s.volumes ++ [new_vol] }
    ⟨.ok new_vol, s', persist_all s'⟩

/-- `GET /v3/volumes/\x7bvolume_id\x7d`. -/
def get_volume (tok : Option String) (volume_id : String) (s : St) :
    Resp Volume :=
  match require_token tok s.tokens with
  | .error e => ⟨.error e, s, []⟩
  | .ok _ =>
    match s.volumes.find? (fun vol => vol.id == volume_id) with
    | some vol => ⟨.ok vol, s, []⟩
    | none => ⟨.error .NotFound, s, []⟩

/-- `DELETE /v3/volumes/\x7bvolume_id\x7d`. -/
def delete_volume (tok : Option String) (volume_id : String) (s : St) :
    Resp String :=
  match require_token tok s.tokens with
  | .error e => ⟨.error e, s, []⟩
  | .ok _ =>
    let remaining := s.volumes.filter (fun vol => vol.id ≠ volume_id)
    let s' := { s with volumes := remaining }
    if remaining.length = s.volumes.length then
      ⟨.error .NotFound, s', persist_all s'⟩
    else
      ⟨.ok "Deleted", s', persist_all s'⟩

/-- `GET /v2.1/servers`. -/
def list_servers (tok : Option String) (s : St) : Resp (List Server) :=
  match require_token tok s.tokens with
  | .error e => ⟨.error e, s, []⟩
  | .ok _ => ⟨.ok s.servers, s, []⟩

/-- `POST /v2.1/servers` (202). -/
def create_server (tok : Option String) (srv : ServerIn) (newId : String)
    (s : St) : Resp Server :=
  match require_token tok s.tokens with
  | .error e => ⟨.error e, s, []⟩
  | .ok _ =>
    let new_srv : Server :=
      { id := newId, name := srv.name, status := "BUILD",
        image_id := some srv.image_id, flavor_id := srv.flavor_id }
    let s' := { s with servers := s.servers ++ [new_srv] }
    ⟨.ok new_srv, s', persist_all s'⟩

/-- `GET /v2.1/servers/\x7bserver_id\x7d`. -/
def get_server (tok : Option String) (server_id : String) (s : St) :
    Resp Server :=
  match require_token tok s.tokens with
  | .error e => ⟨.error e, s, []⟩
  | .ok _ =>
    match s.servers.find? (fun srv => srv.id == server_id) with
    | some srv => ⟨.ok srv, s, []⟩
    | none => ⟨.error .NotFound, s, []⟩

/-- `DELETE /v2.1/servers/\x7bserver_id\x7d`. -/
def delete_server (tok : Option String) (server_id : String) (s : St) :
    Resp String :=
  match require_token tok s.tokens with
  | .error e => ⟨.error e, s, []⟩
  | .ok _ =>
    let remaining := s.servers.filter (fun srv => srv.id ≠ server_id)
    let s' := { s with servers := remaining }
    if remaining.length = s.servers.length then
      ⟨.error .NotFound, s', persist_all s'⟩
    else
      ⟨.ok "Deleted", s', persist_all s'⟩

/-- `POST /v3/auth/logout`: not token-gated; `TOKENS.pop(header, None)`
(a no-op when the header is absent or unknown), then persist. -/
def logout (x_auth_token : Option String) (s : St) : Resp String :=
  let s' :=
    match x_auth_token with
    | none => s
    | some t => { s with tokens := dictRemove s.tokens t }
  ⟨.ok "Logged out", s', persist_all s'⟩

/-- Python `a or b` over the two `body.get(...)` results in
`attach_volume` (an absent key gives `None`, which is falsy). -/
def pyOr (a b : Option Json) : Option Json :=
  match a with
  | some v => if v.truthy then some v else b
  | none => b

/-- Truthiness of an optional JSON value (`None` is falsy). -/
def optTruthy : Option Json → Bool
  | none => false
  | some v => v.truthy

/-- `POST /v2.1/servers/\x7bserver_id\x7d/os-volume_attachments` (202).
`newId`/`now` stand for `uuid.uuid4()` and `now_iso()`. -/
def attach_volume (tok : Option String) (server_id : String) (body : JFields)
    (newId now : String) (s : St) : Resp Attachment :=
  match require_token tok s.tokens with
  | .error e => ⟨.error e, s, []⟩
  | .ok _ =>
    let volume_id := pyOr (body.get? "volumeId") (body.get? "volume_id")
    let device := (body.get? "device").getD (.str "/dev/vdb")
    if optTruthy volume_id = false then
      ⟨.error .BadRequest, s, []⟩
    else
      match volume_id with
      | none => ⟨.error .BadRequest, s, []⟩
      | some v =>
        if s.attachments.any
            (fun a => a.serverId == server_id && a.volumeId == v) then
          ⟨.error .Conflict, s, []⟩
        else
          let new_attach : Attachment :=
            { id := newId, serverId := server_id, volumeId := v,
              device := device, attached_at := now }
          let s' := { s with attachments := s.attachments ++ [new_attach] }
          ⟨.ok new_attach, s', persist_all s'⟩

/-- `GET /v2.1/servers/\x7bserver_id\x7d/os-volume_attachments`. -/
def list_attachments (tok : Option String) (server_id : String) (s : St) :
    Resp (List Attachment) :=
  match require_token tok s.tokens with
  | .error e => ⟨.error e, s, []⟩
  | .ok _ =>
    ⟨.ok (s.attachments.filter (fun a => a.serverId == server_id)), s, []⟩

/-- `DELETE /v2.1/servers/\x7bsid\x7d/os-volume_attachments/\x7baid\x7d`
(204): filter out the (serverId, id) match, persist, 404 when nothing
was removed. -/
def detach_volume (tok : Option String) (server_id attachment_id : String)
    (s : St) : Resp Unit :=
  match require_token tok s.tokens with
  | .error e => ⟨.error e, s, []⟩
  | .ok _ =>
    let remaining := s.attachments.filter
      (fun a => ¬(a.serverId = server_id ∧ a.id = attachment_id))
    let s' := { s with attachments := remaining }
    if remaining.length = s.attachments.length then
      ⟨.error .NotFound, s', persist_all s'⟩
    else
      ⟨.ok (), s', persist_all s'⟩

-- ## Operations, reachability, and the seed state

/-- One labelled invocation of a mutating-or-not endpoint, with all of
its inputs (including the nondeterministic fresh ids / timestamps). -/
inductive Op where
  | login (body : Json) (newTok : String)
  | authLogout (tok : Option String)
  | imagesList (tok : Option String)
  | imagesCreate (tok : Option String) (img : ImageIn) (newId now : String)
  | imagesGet (tok : Option String) (id : String)
  | imagesDelete (tok : Option String) (id : String)
  | volumesList (tok : Option String)
  | volumesCreate (tok : Option String) (vol : VolumeIn) (newId : String)
  | volumesGet (tok : Option String) (id : String)
  | volumesDelete (tok : Option String) (id : String)
  | serversList (tok : Option String)
  | serversCreate (tok : Option String) (srv : ServerIn) (newId : String)
  | serversGet (tok : Option String) (id : String)
  | serversDelete (tok : Option String) (id : String)
  | attachmentsCreate (tok : Option String) (sid : String) (body : JFields)
      (newId now : String)
  | attachmentsList (tok : Option String) (sid : String)
  | attachmentsDelete (tok : Option String) (sid aid : String)

/-- The store state after handling one request. -/
def applyOp (op : Op) (s : St) : St :=
  match op with
  | .login body newTok => (get_token body newTok s).state
  | .authLogout tok => (logout tok s).state
  | .imagesList tok => (list_images tok s).state
  | .imagesCreate tok img newId now => (create_image tok img newId now s).state
  | .imagesGet tok i => (get_image tok i s).state
  | .imagesDelete tok i => (delete_image tok i s).state
  | .volumesList tok => (list_volumes tok s).state
  | .volumesCreate tok vol newId => (create_volume tok vol newId s).state
  | .volumesGet tok i => (get_volume tok i s).state
  | .volumesDelete tok i => (delete_volume tok i s).state
  | .serversList tok => (list_servers tok s).state
  | .serversCreate tok srv newId => (create_server tok srv newId s).state
  | .serversGet tok i => (get_server tok i s).state
  | .serversDelete tok i => (delete_server tok i s).state
  | .attachmentsCreate tok sid body newId now =>
      (attach_volume tok sid body newId now s).state
  | .attachmentsList tok sid => (list_attachments tok sid s).state
  | .attachmentsDelete tok sid aid => (detach_volume tok sid aid s).state

/-- Run a sequence of requests from a starting state. -/
def runOps (ops : List Op) (s : St) : St :=
  ops.foldl (fun st op => applyOp op st) s

/-- `s` is reachable from `s0` by handling some sequence of requests. -/
def ReachableFrom (s0 s : St) : Prop :=
  ∃ ops : List Op, s = runOps ops s0

/-- The seeded `USERS` dict. -/
def seedUsers : List (String × User) :=
  [("admin", { password := "secret", id := "user-1", role := "admin",
               domain := "default" }),
   ("demo", { password := "test", id := "user-2", role := "user",
              domain := "default" })]

/-- The default startup state (fresh data directory): the seed users,
image, volume and server, no tokens, no attachments.  The seed entities'
generated ids and creation instant are parameters. -/
def initSt (imgId imgTime volId srvId : String) : St :=
  { users := seedUsers,
    tokens := [],
    images := [{ id := imgId, name := "Cirros", status := "active",
                 size := 13287936, visibility := "public",
                 container_format := "bare", disk_format := "qcow2",
                 created_at := imgTime }],
    volumes := [{ id := volId, name := "vol-1", size := 1,
                  status := "available" }],
    servers := [{ id := srvId, name := "server-1", status := "ACTIVE",
                  image_id := none, flavor_id := none }],
    attachments := [] }

-- ## Claim-level predicates

/-- At most one attachment per (serverId, volumeId) pair. -/
def attachPairUnique (l : List Attachment) : Prop :=
  l.Pairwise (fun a b => a.serverId ≠ b.serverId ∨ a.volumeId ≠ b.volumeId)

/-- The credential is absent, empty, or not a key of the token
collection. -/
def invalidToken (tok : Option String) (tokens : List (String × String)) :
    Prop :=
  tok = none ∨ tok = some "" ∨ ∃ t, tok = some t ∧ dictFind? tokens t = none

/-- The handler rejected the request: 401, no state change, no write to
the persistence provider. -/
def rejected {α : Type} (r : Resp α) (s : St) : Prop :=
  r.result = .error .Unauthorized ∧ r.state = s ∧ r.saves = []

/-- Every protected endpoint, invoked with credential `tok` against
state `s` and any request data at all, rejects with 401. -/
def allProtectedUnauthorized (tok : Option String) (s : St) : Prop :=
  rejected (list_images tok s) s ∧
  (∀ img newId now, rejected (create_image tok img newId now s) s) ∧
  (∀ i, rejected (get_image tok i s) s) ∧
  (∀ i, rejected (delete_image tok i s) s) ∧
  rejected (list_volumes tok s) s ∧
  (∀ vol newId, rejected (create_volume tok vol newId s) s) ∧
  (∀ i, rejected (get_volume tok i s) s) ∧
  (∀ i, rejected (delete_volume tok i s) s) ∧
  rejected (list_servers tok s) s ∧
  (∀ srv newId, rejected (create_server tok srv newId s) s) ∧
  (∀ i, rejected (get_server tok i s) s) ∧
  (∀ i, rejected (delete_server tok i s) s) ∧
  (∀ sid body newId now, rejected (attach_volume tok sid body newId now s) s) ∧
  (∀ sid, rejected (list_attachments tok sid s) s) ∧
  (∀ sid aid, rejected (detach_volume tok sid aid s) s)

-- ## Lemmas: the credential gate and the dict model

theorem require_token_of_invalid {tok : Option String}
    {tokens : List (String × String)} (h : invalidToken tok tokens) :
    require_token tok tokens = .error .Unauthorized := by
  rcases h with h | h | ⟨t, rfl, ht⟩
  · subst h; rfl
  · subst h; rfl
  · simp [require_token, ht]

theorem require_token_ok_iff {tok : Option String}
    {tokens : List (String × String)} :
    require_token tok tokens = .ok () ↔
      ∃ t, tok = some t ∧ t ≠ "" ∧ (dictFind? tokens t).isSome := by
  cases tok with
  | none => simp [require_token]
  | some t =>
    simp only [require_token]
    by_cases he : t = "" <;>
      simp only [he] <;>
      cases hf : dictFind? tokens t <;>
      simp [he, hf]

theorem dictFind?_dictInsert {α : Type} (d : List (String × α)) (k k2 : String)
    (v : α) :
    dictFind? (dictInsert d k v) k2 = if k = k2 then some v else dictFind? d k2 := by
  induction d with
  | nil => simp [dictInsert, dictFind?]
  | cons p rest ih =>
    obtain ⟨k3, v3⟩ := p
    by_cases h3 : k3 = k
    · subst h3
      by_cases h2 : k3 = k2 <;> simp [dictInsert, dictFind?, h2]
    · by_cases h2 : k3 = k2
      · subst h2
        have : ¬k = k3 := fun hh => h3 hh.symm
        simp [dictInsert, dictFind?, h3, this]
      · simp [dictInsert, dictFind?, h3, h2, ih]

theorem dictFind?_dictRemove_self {α : Type} (d : List (String × α))
    (k : String) : dictFind? (dictRemove d k) k = none := by
  induction d with
  | nil => rfl
  | cons p rest ih =>
    obtain ⟨k2, v2⟩ := p
    by_cases h : k2 = k
    · have hgone : dictRemove ((k2, v2) :: rest) k = dictRemove rest k := by
        simp [dictRemove, List.filter, h]
      rw [hgone]; exact ih
    · have hkeep : dictRemove ((k2, v2) :: rest) k = (k2, v2) :: dictRemove rest k := by
        simp [dictRemove, List.filter, h]
      rw [hkeep]
      simp only [dictFind?, if_neg h]
      exact ih

theorem dictFind?_dictRemove_ne {α : Type} (d : List (String × α))
    {k k2 : String} (h : k2 ≠ k) :
    dictFind? (dictRemove d k) k2 = dictFind? d k2 := by
  induction d with
  | nil => rfl
  | cons p rest ih =>
    obtain ⟨k3, v3⟩ := p
    by_cases h3 : k3 = k
    · have hgone : dictRemove ((k3, v3) :: rest) k = dictRemove rest k := by
        simp [dictRemove, List.filter, h3]
      have hne : ¬k3 = k2 := by
        subst h3; exact fun hh => h hh.symm
      rw [hgone, ih]
      simp only [dictFind?, if_neg hne]
    · have hkeep : dictRemove ((k3, v3) :: rest) k = (k3, v3) :: dictRemove rest k := by
        simp [dictRemove, List.filter, h3]
      rw [hkeep]
      by_cases h2 : k3 = k2
      · simp only [dictFind?, if_pos h2]
      · simp only [dictFind?, if_neg h2]
        exact ih

-- ## Lemmas: store fields untouched by each handler

theorem list_images_state (tok : Option String) (s : St) :
    (list_images tok s).state = s := by
  unfold list_images; split <;> rfl

theorem get_image_state (tok : Option String) (i : String) (s : St) :
    (get_image tok i s).state = s := by
  unfold get_image; repeat' split
  all_goals rfl

theorem list_volumes_state (tok : Option String) (s : St) :
    (list_volumes tok s).state = s := by
  unfold list_volumes; split <;> rfl

theorem get_volume_state (tok : Option String) (i : String) (s : St) :
    (get_volume tok i s).state = s := by
  unfold get_volume; repeat' split
  all_goals rfl

theorem list_servers_state (tok : Option String) (s : St) :
    (list_servers tok s).state = s := by
  unfold list_servers; split <;> rfl

theorem get_server_state (tok : Option String) (i : String) (s : St) :
    (get_server tok i s).state = s := by
  unfold get_server; repeat' split
  all_goals rfl

theorem list_attachments_state (tok : Option String) (sid : String) (s : St) :
    (list_attachments tok sid s).state = s := by
  unfold list_attachments; split <;> rfl

theorem create_image_state_tokens (tok : Option String) (img : ImageIn)
    (newId now : String) (s : St) :
    (create_image tok img newId now s).state.tokens = s.tokens := by
  unfold create_image; split <;> rfl

theorem delete_image_state_tokens (tok : Option String) (i : String) (s : St) :
    (delete_image tok i s).state.tokens = s.tokens := by
  unfold delete_image
  split
  · rfl
  · dsimp only
    split <;> rfl

theorem create_volume_state_tokens (tok : Option String) (vol : VolumeIn)
    (newId : String) (s : St) :
    (create_volume tok vol newId s).state.tokens = s.tokens := by
  unfold create_volume; split <;> rfl

theorem delete_volume_state_tokens (tok : Option String) (i : String) (s : St) :
    (delete_volume tok i s).state.tokens = s.tokens := by
  unfold delete_volume
  split
  · rfl
  · dsimp only
    split <;> rfl

theorem create_server_state_tokens (tok : Option String) (srv : ServerIn)
    (newId : String) (s : St) :
    (create_server tok srv newId s).state.tokens = s.tokens := by
  unfold create_server; split <;> rfl

theorem delete_server_state_tokens (tok : Option String) (i : String) (s : St) :
    (delete_server tok i s).state.tokens = s.tokens := by
  unfold delete_server
  split
  · rfl
  · dsimp only
    split <;> rfl

theorem attach_volume_state_tokens (tok : Option String) (sid : String)
    (body : JFields) (newId now : String) (s : St) :
    (attach_volume tok sid body newId now s).state.tokens = s.tokens := by
  unfold attach_volume
  split
  · rfl
  · dsimp only
    split
    · rfl
    · split
      · rfl
      · split <;> rfl

theorem detach_volume_state_tokens (tok : Option String) (sid aid : String)
    (s : St) :
    (detach_volume tok sid aid s).state.tokens = s.tokens := by
  unfold detach_volume
  split
  · rfl
  · dsimp only
    split <;> rfl

theorem create_image_state_attachments (tok : Option String) (img : ImageIn)
    (newId now : String) (s : St) :
    (create_image tok img newId now s).state.attachments = s.attachments := by
  unfold create_image; split <;> rfl

theorem delete_image_state_attachments (tok : Option String) (i : String)
    (s : St) :
    (delete_image tok i s).state.attachments = s.attachments := by
  unfold delete_image
  split
  · rfl
  · dsimp only
    split <;> rfl

theorem create_volume_state_attachments (tok : Option String) (vol : VolumeIn)
    (newId : String) (s : St) :
    (create_volume tok vol newId s).state.attachments = s.attachments := by
  unfold create_volume; split <;> rfl

theorem delete_volume_state_attachments (tok : Option String) (i : String)
    (s : St) :
    (delete_volume tok i s).state.attachments = s.attachments := by
  unfold delete_volume
  split
  · rfl
  · dsimp only
    split <;> rfl

theorem create_server_state_attachments (tok : Option String) (srv : ServerIn)
    (newId : String) (s : St) :
    (create_server tok srv newId s).state.attachments = s.attachments := by
  unfold create_server; split <;> rfl

theorem delete_server_state_attachments (tok : Option String) (i : String)
    (s : St) :
    (delete_server tok i s).state.attachments = s.attachments := by
  unfold delete_server
  split
  · rfl
  · dsimp only
    split <;> rfl

theorem get_token_state_attachments (body : Json) (nt : String) (s : St) :
    (get_token body nt s).state.attachments = s.attachments := by
  unfold get_token; repeat' split
  all_goals rfl

theorem logout_state_attachments (tok : Option String) (s : St) :
    (logout tok s).state.attachments = s.attachments := by
  unfold logout; split <;> rfl

-- ## Lemmas: the attach/detach handlers and the pair-uniqueness invariant

theorem attach_volume_preserves_pairUnique (tok : Option String) (sid : String)
    (body : JFields) (newId now : String) (s : St)
    (h : attachPairUnique s.attachments) :
    attachPairUnique (attach_volume tok sid body newId now s).state.attachments := by
  unfold attach_volume
  split
  · exact h
  · dsimp only
    split
    · exact h
    · split
      · exact h
      · rename_i v hsome
        split
        · exact h
        · rename_i hscan
          have hscan2 : (s.attachments.any
              fun a => a.serverId == sid && a.volumeId == v) = false := by
            revert hscan
            cases s.attachments.any fun a => a.serverId == sid && a.volumeId == v <;>
              simp
          unfold attachPairUnique at h ⊢
          dsimp only
          rw [List.pairwise_append]
          refine ⟨h, List.pairwise_singleton _ _, ?_⟩
          intro a ha b hb
          rw [List.mem_singleton] at hb
          subst hb
          have hna := List.any_eq_false.mp hscan2 a ha
          simp only [Bool.and_eq_true, beq_iff_eq, not_and] at hna
          dsimp only
          by_cases hs : a.serverId = sid
          · exact Or.inr (hna hs)
          · exact Or.inl hs

theorem detach_volume_preserves_pairUnique (tok : Option String)
    (sid aid : String) (s : St) (h : attachPairUnique s.attachments) :
    attachPairUnique (detach_volume tok sid aid s).state.attachments := by
  unfold detach_volume
  split
  · exact h
  · dsimp only
    split <;>
      exact List.Pairwise.sublist (List.filter_sublist _) h

theorem applyOp_preserves_pairUnique (op : Op) (s : St)
    (h : attachPairUnique s.attachments) :
    attachPairUnique (applyOp op s).attachments := by
  cases op with
  | login body nt =>
    rw [applyOp, get_token_state_attachments]; exact h
  | authLogout tok =>
    rw [applyOp, logout_state_attachments]; exact h
  | imagesList tok =>
    rw [applyOp, list_images_state]; exact h
  | imagesCreate tok img newId now =>
    rw [applyOp, create_image_state_attachments]; exact h
  | imagesGet tok i =>
    rw [applyOp, get_image_state]; exact h
  | imagesDelete tok i =>
    rw [applyOp, delete_image_state_attachments]; exact h
  | volumesList tok =>
    rw [applyOp, list_volumes_state]; exact h
  | volumesCreate tok vol newId =>
    rw [applyOp, create_volume_state_attachments]; exact h
  | volumesGet tok i =>
    rw [applyOp, get_volume_state]; exact h
  | volumesDelete tok i =>
    rw [applyOp, delete_volume_state_attachments]; exact h
  | serversList tok =>
    rw [applyOp, list_servers_state]; exact h
  | serversCreate tok srv newId =>
    rw [applyOp, create_server_state_attachments]; exact h
  | serversGet tok i =>
    rw [applyOp, get_server_state]; exact h
  | serversDelete tok i =>
    rw [applyOp, delete_server_state_attachments]; exact h
  | attachmentsCreate tok sid body newId now =>
    rw [applyOp]; exact attach_volume_preserves_pairUnique tok sid body newId now s h
  | attachmentsList tok sid =>
    rw [applyOp, list_attachments_state]; exact h
  | attachmentsDelete tok sid aid =>
    rw [applyOp]; exact detach_volume_preserves_pairUnique tok sid aid s h

theorem runOps_preserves_pairUnique (ops : List Op) (s : St)
    (h : attachPairUnique s.attachments) :
    attachPairUnique (runOps ops s).attachments := by
  induction ops generalizing s with
  | nil => exact h
  | cons op rest ih =>
    exact ih (applyOp op s) (applyOp_preserves_pairUnique op s h)
-- ## Lemmas: successful attach decomposed

theorem optTruthy_ne_false {o : Option Json} (h : ¬optTruthy o = false) :
    ∃ v, o = some v ∧ v.truthy = true := by
  cases o with
  | none => exact absurd rfl h
  | some v =>
    refine ⟨v, rfl, ?_⟩
    simp only [optTruthy] at h
    revert h
    cases v.truthy <;> simp

theorem attach_volume_ok_parts (tok : Option String) (sid : String)
    (body : JFields) (newId now : String) (s : St) (a : Attachment)
    (h : (attach_volume tok sid body newId now s).result = .ok a) :
    require_token tok s.tokens = .ok () ∧
    pyOr (body.get? "volumeId") (body.get? "volume_id") = some a.volumeId ∧
    a.volumeId.truthy = true ∧
    (s.attachments.any
      fun x => x.serverId == sid && x.volumeId == a.volumeId) = false ∧
    a = { id := newId, serverId := sid, volumeId := a.volumeId,
          device := (body.get? "device").getD (.str "/dev/vdb"),
          attached_at := now } ∧
    (attach_volume tok sid body newId now s).state =
      { s with attachments := s.attachments ++ [a] } ∧
    (attach_volume tok sid body newId now s).saves =
      persist_all { s with attachments := s.attachments ++ [a] } := by
  revert h
  unfold attach_volume
  cases hrt : require_token tok s.tokens with
  | error e => intro h; exact absurd h (by simp)
  | ok u =>
    dsimp only
    by_cases hot : optTruthy (pyOr (body.get? "volumeId") (body.get? "volume_id")) = false
    · rw [if_pos hot]; intro h; exact absurd h (by simp)
    · rw [if_neg hot]
      obtain ⟨v, hv, hvt⟩ := optTruthy_ne_false hot
      rw [hv]
      dsimp only
      by_cases hscan :
          (s.attachments.any fun x => x.serverId == sid && x.volumeId == v) = true
      · rw [if_pos hscan]; intro h; exact absurd h (by simp)
      · rw [if_neg hscan]
        intro h
        dsimp only at h
        injection h with h2
        subst h2
        refine ⟨rfl, rfl, hvt, ?_, rfl, rfl, rfl⟩
        revert hscan
        cases s.attachments.any fun x => x.serverId == sid && x.volumeId == v <;>
          simp

theorem attach_volume_again_conflict (tok : Option String) (sid : String)
    (body : JFields) (newId now newId2 now2 : String) (s : St) (a : Attachment)
    (h : (attach_volume tok sid body newId now s).result = .ok a) :
    (attach_volume tok sid body newId2 now2
        ((attach_volume tok sid body newId now s).state)).result =
      .error .Conflict := by
  obtain ⟨hrt, hv, htr, hscan, ha, hstate, hsaves⟩ :=
    attach_volume_ok_parts tok sid body newId now s a h
  rw [hstate]
  unfold attach_volume
  rw [show ({ s with attachments := s.attachments ++ [a] } : St).tokens = s.tokens
        from rfl,
      hrt]
  dsimp only
  rw [hv]
  rw [show optTruthy (some a.volumeId) = a.volumeId.truthy from rfl, htr]
  simp only [Bool.true_eq_false, if_false]
  have hnew : (List.any [a] fun x => x.serverId == sid && x.volumeId == a.volumeId) =
      true := by
    have hsid : a.serverId = sid := by rw [ha]
    simp [hsid]
  rw [List.any_append, hscan, hnew]
  simp

theorem attach_volume_other_server (tok : Option String) (sid sid2 : String)
    (body : JFields) (newId now newId2 now2 : String) (s : St)
    (a b : Attachment)
    (h1 : (attach_volume tok sid body newId now s).result = .ok a)
    (h2 : (attach_volume tok sid2 body newId2 now2 s).result = .ok b)
    (hne : sid2 ≠ sid) :
    ∃ c, (attach_volume tok sid2 body newId2 now2
        ((attach_volume tok sid body newId now s).state)).result = .ok c := by
  obtain ⟨hrt, hv, htr, hscan, ha, hstate, hsaves⟩ :=
    attach_volume_ok_parts tok sid body newId now s a h1
  obtain ⟨hrt2, hv2, htr2, hscan2, hb, hstate2, hsaves2⟩ :=
    attach_volume_ok_parts tok sid2 body newId2 now2 s b h2
  have hvv : b.volumeId = a.volumeId := by
    rw [hv] at hv2
    exact (Option.some.inj hv2).symm
  rw [hstate]
  unfold attach_volume
  rw [show ({ s with attachments := s.attachments ++ [a] } : St).tokens = s.tokens
        from rfl,
      hrt2]
  dsimp only
  rw [hv]
  rw [show optTruthy (some a.volumeId) = a.volumeId.truthy from rfl, htr]
  simp only [Bool.true_eq_false, if_false]
  have hnew : (List.any [a] fun x => x.serverId == sid2 && x.volumeId == a.volumeId) =
      false := by
    have hsid : a.serverId = sid := by rw [ha]
    have hss : ¬sid = sid2 := fun hh => hne hh.symm
    simp [hsid, hss]
  rw [hvv] at hscan2
  rw [List.any_append, hscan2, hnew]
  exact ⟨_, rfl⟩

theorem attach_volume_conflict_of_dup (tok : Option String) (sid : String)
    (body : JFields) (newId now : String) (s : St) (v : Json)
    (hrt : require_token tok s.tokens = .ok ())
    (hv : pyOr (body.get? "volumeId") (body.get? "volume_id") = some v)
    (hvt : v.truthy = true)
    (hdup : ∃ x ∈ s.attachments, x.serverId = sid ∧ x.volumeId = v) :
    (attach_volume tok sid body newId now s).result = .error .Conflict := by
  unfold attach_volume
  rw [hrt]
  dsimp only
  rw [hv]
  rw [show optTruthy (some v) = v.truthy from rfl, hvt]
  simp only [Bool.true_eq_false, if_false]
  have hscan :
      (s.attachments.any fun x => x.serverId == sid && x.volumeId == v) = true := by
    obtain ⟨x, hx, hx1, hx2⟩ := hdup
    refine List.any_eq_true.mpr ⟨x, hx, ?_⟩
    simp [hx1, hx2]
  rw [hscan]
  simp

-- ## C1: per-pair uniqueness of attachments

/-- **C1.**  In every reachable state of the store, at most one
attachment exists per (serverId, volumeId) pair; `attach` answers
`Conflict` when an attachment with exactly that pair already exists, so
attaching the same volume to the same server twice yields success then
`Conflict`, while attaching that same volume to a different server
afterwards succeeds. -/
theorem attach_pair_uniqueness (s0 s : St)
    (h0 : attachPairUnique s0.attachments) (hr : ReachableFrom s0 s) :
    attachPairUnique s.attachments ∧
    (∀ (tok : Option String) (sid : String) (body : JFields)
        (newId now : String) (v : Json),
      require_token tok s.tokens = .ok () →
      pyOr (body.get? "volumeId") (body.get? "volume_id") = some v →
      v.truthy = true →
      (∃ x ∈ s.attachments, x.serverId = sid ∧ x.volumeId = v) →
      (attach_volume tok sid body newId now s).result = .error .Conflict) ∧
    (∀ (tok : Option String) (sid : String) (body : JFields)
        (newId now newId2 now2 : String) (a : Attachment),
      (attach_volume tok sid body newId now s).result = .ok a →
      (attach_volume tok sid body newId2 now2
          ((attach_volume tok sid body newId now s).state)).result =
        .error .Conflict) ∧
    (∀ (tok : Option String) (sid sid2 : String) (body : JFields)
        (newId now newId2 now2 : String) (a b : Attachment),
      (attach_volume tok sid body newId now s).result = .ok a →
      (attach_volume tok sid2 body newId2 now2 s).result = .ok b →
      sid2 ≠ sid →
      ∃ c, (attach_volume tok sid2 body newId2 now2
          ((attach_volume tok sid body newId now s).state)).result = .ok c) := by
  obtain ⟨ops, rfl⟩ := hr
  refine ⟨runOps_preserves_pairUnique ops s0 h0, ?_, ?_, ?_⟩
  · intro tok sid body newId now v hrt hv hvt hdup
    exact attach_volume_conflict_of_dup tok sid body newId now _ v hrt hv hvt hdup
  · intro tok sid body newId now newId2 now2 a h
    exact attach_volume_again_conflict tok sid body newId now newId2 now2 _ a h
  · intro tok sid sid2 body newId now newId2 now2 a b h1 h2 hne
    exact attach_volume_other_server tok sid sid2 body newId now newId2 now2 _
      a b h1 h2 hne

/-- A concrete startup state used by the witnesses. -/
def st0 : St := initSt "img-0" "2024-01-01T00:00:00Z" "vol-0" "srv-0"

/-- `st0` after one token has been issued. -/
def stAuth : St := { st0 with tokens := [("tok-1", "user-1")] }

/-- A concrete attach request body. -/
def attachBody : JFields := .cons "volumeId" (.str "v1") .nil

theorem attach_pair_uniqueness_witness :
    attachPairUnique stAuth.attachments ∧
    (attach_volume (some "tok-1") "s1" attachBody "att-2" "t2"
        ((attach_volume (some "tok-1") "s1" attachBody "att-1" "t1"
          stAuth).state)).result = .error ApiError.Conflict := by
  have h := attach_pair_uniqueness stAuth stAuth
    (by simp [stAuth, st0, initSt, attachPairUnique]) ⟨[], rfl⟩
  refine ⟨h.1, ?_⟩
  exact h.2.2.1 (some "tok-1") "s1" attachBody "att-1" "t1" "att-2" "t2"
    ⟨"att-1", "s1", .str "v1", .str "/dev/vdb", "t1"⟩ rfl

-- ## C2: every protected endpoint rejects a missing/unknown token

theorem gate_rejects_all (tok : Option String) (s : St)
    (h : invalidToken tok s.tokens) : allProtectedUnauthorized tok s := by
  have hrt : require_token tok s.tokens = .error .Unauthorized :=
    require_token_of_invalid h
  unfold allProtectedUnauthorized rejected
  refine ⟨?_, ?_, ?_, ?_, ?_, ?_, ?_, ?_, ?_, ?_, ?_, ?_, ?_, ?_, ?_⟩ <;>
    intros <;>
    simp [list_images, create_image, get_image, delete_image, list_volumes,
      create_volume, get_volume, delete_volume, list_servers, create_server,
      get_server, delete_server, attach_volume, list_attachments,
      detach_volume, hrt]

/-- **C2.**  For every protected operation and every request, if the
`X-Auth-Token` header is absent, empty, or not a key of the token
collection, the operation fails with `Unauthorized`, independently of
the request body. -/
theorem protected_endpoints_unauthorized (tok : Option String) (s : St)
    (h : invalidToken tok s.tokens) : allProtectedUnauthorized tok s :=
  gate_rejects_all tok s h

theorem protected_endpoints_unauthorized_witness :
    allProtectedUnauthorized (some "bogus") st0 :=
  protected_endpoints_unauthorized (some "bogus") st0
    (Or.inr (Or.inr ⟨"bogus", rfl, rfl⟩))

-- ## Lemmas: successful login decomposed, token validity across runs

theorem get_token_ok_parts (body : Json) (nt : String) (s : St) (r : TokenResp)
    (h : (get_token body nt s).result = .ok r) :
    r.token = nt ∧ r.xSubjectToken = nt ∧
    ∃ username user,
      extractCreds body = some (.str username, .str user.password) ∧
      dictFind? s.users username = some user ∧
      r.user = ⟨user.id, username, user.role⟩ ∧
      r.project = ⟨"mock-project", "MockProject"⟩ ∧
      (get_token body nt s).state =
        { s with tokens := dictInsert s.tokens nt user.id } ∧
      (get_token body nt s).saves =
        persist_all { s with tokens := dictInsert s.tokens nt user.id } := by
  revert h
  unfold get_token
  cases hext : extractCreds body with
  | none => intro h; exact absurd h (by simp)
  | some pair =>
    obtain ⟨nameJ, passwordJ⟩ := pair
    dsimp only
    cases nameJ with
    | null => intro h; exact absurd h (by simp)
    | bool b => intro h; exact absurd h (by simp)
    | num n => intro h; exact absurd h (by simp)
    | arr xs => intro h; exact absurd h (by simp)
    | obj fs => intro h; exact absurd h (by simp)
    | str username =>
      dsimp only
      cases huser : dictFind? s.users username with
      | none => intro h; exact absurd h (by simp)
      | some user =>
        dsimp only
        by_cases hpw : passwordJ = .str user.password
        · rw [if_pos hpw]
          intro h
          dsimp only at h
          injection h with h2
          subst h2
          subst hpw
          exact ⟨rfl, rfl, username, user, rfl, huser, rfl, rfl, rfl, rfl⟩
        · rw [if_neg hpw]
          intro h
          exact absurd h (by simp)

theorem get_token_preserves_token_valid (body : Json) (nt t : String) (s : St)
    (h : (dictFind? s.tokens t).isSome) :
    (dictFind? (get_token body nt s).state.tokens t).isSome := by
  unfold get_token
  repeat' split
  all_goals try exact h
  dsimp only
  rw [dictFind?_dictInsert]
  split
  · simp
  · exact h

theorem applyOp_preserves_token_valid (op : Op) (t : String) (s : St)
    (hop : op ≠ Op.authLogout (some t))
    (h : (dictFind? s.tokens t).isSome) :
    (dictFind? (applyOp op s).tokens t).isSome := by
  cases op with
  | login body nt =>
    rw [applyOp]; exact get_token_preserves_token_valid body nt t s h
  | authLogout tok =>
    rw [applyOp]
    cases tok with
    | none => exact h
    | some u =>
      have hne : t ≠ u := fun hh => hop (by rw [hh])
      unfold logout
      dsimp only
      rw [dictFind?_dictRemove_ne _ hne]
      exact h
  | imagesList tok => rw [applyOp, list_images_state]; exact h
  | imagesCreate tok img newId now =>
    rw [applyOp, create_image_state_tokens]; exact h
  | imagesGet tok i => rw [applyOp, get_image_state]; exact h
  | imagesDelete tok i => rw [applyOp, delete_image_state_tokens]; exact h
  | volumesList tok => rw [applyOp, list_volumes_state]; exact h
  | volumesCreate tok vol newId =>
    rw [applyOp, create_volume_state_tokens]; exact h
  | volumesGet tok i => rw [applyOp, get_volume_state]; exact h
  | volumesDelete tok i => rw [applyOp, delete_volume_state_tokens]; exact h
  | serversList tok => rw [applyOp, list_servers_state]; exact h
  | serversCreate tok srv newId =>
    rw [applyOp, create_server_state_tokens]; exact h
  | serversGet tok i => rw [applyOp, get_server_state]; exact h
  | serversDelete tok i => rw [applyOp, delete_server_state_tokens]; exact h
  | attachmentsCreate tok sid body newId now =>
    rw [applyOp, attach_volume_state_tokens]; exact h
  | attachmentsList tok sid => rw [applyOp, list_attachments_state]; exact h
  | attachmentsDelete tok sid aid =>
    rw [applyOp, detach_volume_state_tokens]; exact h

theorem runOps_preserves_token_valid (ops : List Op) (t : String) (s : St)
    (hops : Op.authLogout (some t) ∉ ops)
    (h : (dictFind? s.tokens t).isSome) :
    (dictFind? (runOps ops s).tokens t).isSome := by
  induction ops generalizing s with
  | nil => exact h
  | cons op rest ih =>
    have hop : op ≠ Op.authLogout (some t) := by
      intro he; exact hops (he ▸ List.mem_cons_self op rest)
    exact ih (applyOp op s) (fun hmem => hops (List.mem_cons_of_mem _ hmem))
      (applyOp_preserves_token_valid op t s hop h)

/-- The login body of the spec's admin scenario:
`\x7b"auth":\x7b"identity":\x7b"password":\x7b"user":
\x7b"name":"admin","password":"secret"\x7d\x7d\x7d\x7d\x7d`. -/
def adminLoginBody : Json :=
  .obj (.cons "auth" (.obj (.cons "identity" (.obj (.cons "password"
    (.obj (.cons "user" (.obj (.cons "name" (.str "admin")
      (.cons "password" (.str "secret") .nil))) .nil)) .nil)) .nil)) .nil)

-- ## C3: the token lifecycle

/-- **C3.**  A token returned by a successful login passes the
credential gate, and keeps passing it across any sequence of requests
that never calls logout with exactly that token; after logout with the
token, every protected call presenting it fails with `Unauthorized`.
Logout itself never fails — an absent or unknown token is not an error —
and login with the seeded "admin"/"secret" credentials succeeds. -/
theorem token_lifecycle (body : Json) (newTok : String) (s : St)
    (r : TokenResp) (hne : newTok ≠ "")
    (hok : (get_token body newTok s).result = .ok r) :
    require_token (some r.token)
      (get_token body newTok s).state.tokens = .ok () ∧
    (∀ ops : List Op, Op.authLogout (some r.token) ∉ ops →
      require_token (some r.token)
        (runOps ops (get_token body newTok s).state).tokens = .ok ()) ∧
    (∀ st : St,
      dictFind? (logout (some r.token) st).state.tokens r.token = none ∧
      allProtectedUnauthorized (some r.token)
        (logout (some r.token) st).state) ∧
    (∀ (tok : Option String) (st : St),
      (logout tok st).result = .ok "Logged out") ∧
    (∀ (nt : String) (st : St), st.users = seedUsers →
      ∃ r2, (get_token adminLoginBody nt st).result = .ok r2 ∧
        r2.token = nt) := by
  obtain ⟨htok, hx, username, user, hext, huser, hu, hp, hstate, hsaves⟩ :=
    get_token_ok_parts body newTok s r hok
  rw [htok, hstate]
  refine ⟨?_, ?_, ?_, ?_, ?_⟩
  · refine require_token_ok_iff.mpr ⟨newTok, rfl, hne, ?_⟩
    show (dictFind? (dictInsert s.tokens newTok user.id) newTok).isSome
    rw [dictFind?_dictInsert]
    simp
  · intro ops hops
    have hv : (dictFind?
        ({ s with tokens := dictInsert s.tokens newTok user.id } : St).tokens
        newTok).isSome := by
      show (dictFind? (dictInsert s.tokens newTok user.id) newTok).isSome
      rw [dictFind?_dictInsert]
      simp
    exact require_token_ok_iff.mpr
      ⟨newTok, rfl, hne, runOps_preserves_token_valid ops newTok _ hops hv⟩
  · intro st
    have hnone : dictFind? (logout (some newTok) st).state.tokens newTok = none := by
      show dictFind? (dictRemove st.tokens newTok) newTok = none
      exact dictFind?_dictRemove_self st.tokens newTok
    exact ⟨hnone, gate_rejects_all _ _ (Or.inr (Or.inr ⟨newTok, rfl, hnone⟩))⟩
  · intro tok st
    cases tok <;> rfl
  · intro nt st husers
    have hu2 : dictFind? st.users "admin" =
        some ⟨"secret", "user-1", "admin", "default"⟩ := by
      rw [husers]; rfl
    unfold get_token
    rw [show extractCreds adminLoginBody =
          some (.str "admin", .str "secret") from rfl]
    dsimp only
    rw [hu2]
    dsimp only
    rw [if_pos rfl]
    exact ⟨_, rfl, rfl⟩

theorem token_lifecycle_witness :
    require_token (some "tok-1")
      (get_token adminLoginBody "tok-1" st0).state.tokens = .ok () ∧
    (logout (some "unknown-token") stAuth).result = .ok "Logged out" := by
  have h := token_lifecycle adminLoginBody "tok-1" st0
    ⟨"tok-1", ⟨"user-1", "admin", "admin"⟩, ⟨"mock-project", "MockProject"⟩,
      "tok-1"⟩ (by decide) rfl
  exact ⟨h.1, h.2.2.2.1 (some "unknown-token") stAuth⟩

-- ## C4: the login success contract

/-- **C4.**  A login whose body is well-formed, whose username names an
existing user and whose password matches, issues the fresh token, maps
it to the user's id in the token collection, flushes, and returns a body
with that token, the user summary and the fixed project descriptor,
with the `X-Subject-Token` header equal to the body token. -/
theorem login_success_contract (body : Json) (newTok username : String)
    (user : User) (s : St)
    (hext : extractCreds body = some (.str username, .str user.password))
    (huser : dictFind? s.users username = some user) :
    ∃ r, (get_token body newTok s).result = .ok r ∧
      r.token = newTok ∧
      r.xSubjectToken = r.token ∧
      r.user = ⟨user.id, username, user.role⟩ ∧
      r.project = ⟨"mock-project", "MockProject"⟩ ∧
      (get_token body newTok s).state =
        { s with tokens := dictInsert s.tokens newTok user.id } ∧
      dictFind? (get_token body newTok s).state.tokens newTok = some user.id ∧
      (get_token body newTok s).saves =
        persist_all (get_token body newTok s).state := by
  unfold get_token
  rw [hext]
  dsimp only
  rw [huser]
  dsimp only
  rw [if_pos rfl]
  refine ⟨_, rfl, rfl, rfl, rfl, rfl, rfl, ?_, rfl⟩
  show dictFind? (dictInsert s.tokens newTok user.id) newTok = some user.id
  rw [dictFind?_dictInsert]
  simp

theorem login_success_contract_witness :
    dictFind? (get_token adminLoginBody "tok-9" st0).state.tokens "tok-9" =
      some "user-1" := by
  obtain ⟨r, hr, h1, h2, h3, h4, h5, h6, h7⟩ :=
    login_success_contract adminLoginBody "tok-9" "admin"
      ⟨"secret", "user-1", "admin", "default"⟩ st0 rfl rfl
  exact h6

-- ## Lemmas: find?/filter facts used by the CRUD claims

theorem find?_append_of_none {α : Type} (l : List α) (e : α) (p : α → Bool)
    (h : l.find? p = none) (he : p e = true) :
    (l ++ [e]).find? p = some e := by
  rw [List.find?_append, h, List.find?_cons_of_pos _ he]
  rfl

theorem filter_ne_no_match {α : Type} (getId : α → String) (i : String)
    (l : List α) (h : ∀ x ∈ l, getId x ≠ i) :
    (l.filter fun a => getId a ≠ i) = l :=
  List.filter_eq_self.mpr fun a ha => by simp [h a ha]

theorem filter_ne_removes {α : Type} (getId : α → String) (i : String)
    (l : List α) :
    ∀ x ∈ (l.filter fun a => getId a ≠ i), getId x ≠ i := by
  intro x hx
  have h := (List.mem_filter.mp hx).2
  simpa using h

theorem length_filter_ne_of_mem {α : Type} (getId : α → String) (i : String) :
    ∀ l : List α, (l.map getId).Nodup → ∀ x ∈ l, getId x = i →
      (l.filter fun a => getId a ≠ i).length + 1 = l.length := by
  intro l
  induction l with
  | nil => intro _ x hx; exact absurd hx (List.not_mem_nil x)
  | cons y tl ih =>
    intro hnd x hx hxi
    rw [List.map_cons, List.nodup_cons] at hnd
    by_cases hy : getId y = i
    · have htl : ∀ a ∈ tl, getId a ≠ i := by
        intro a ha hai
        apply hnd.1
        rw [hy, ← hai]
        exact List.mem_map_of_mem getId ha
      have hstep : ((y :: tl).filter fun a => getId a ≠ i) = tl := by
        rw [List.filter_cons]
        have : ¬(decide (getId y ≠ i) = true) := by simp [hy]
        rw [if_neg this]
        exact filter_ne_no_match getId i tl htl
      rw [hstep]
      simp
    · have hx2 : x ∈ tl := by
        rcases List.mem_cons.mp hx with hxy | hxtl
        · exact absurd hxi (hxy ▸ hy)
        · exact hxtl
      have hlen := ih hnd.2 x hx2 hxi
      have hstep : ((y :: tl).filter fun a => getId a ≠ i) =
          y :: (tl.filter fun a => getId a ≠ i) := by
        rw [List.filter_cons]
        have : decide (getId y ≠ i) = true := by simp [hy]
        rw [if_pos this]
      rw [hstep]
      simp only [List.length_cons]
      omega

-- ## C5: create/get round-trip per collection

/-- **C5.**  For each collection, `create` returns a new entity carrying
the fresh id and the type's fixed initial status ("queued" for images,
"available" for volumes, "BUILD" for servers), appends it, and `get` of
the new id immediately afterwards returns a value deep-equal to the
create response. -/
theorem create_get_roundtrip (tok : Option String) (s : St)
    (img : ImageIn) (vol : VolumeIn) (srv : ServerIn)
    (iid vid sid now : String)
    (htok : require_token tok s.tokens = .ok ())
    (hif : ∀ im ∈ s.images, im.id ≠ iid)
    (hvf : ∀ v ∈ s.volumes, v.id ≠ vid)
    (hsf : ∀ sv ∈ s.servers, sv.id ≠ sid) :
    (∃ e, (create_image tok img iid now s).result = .ok e ∧
      e.id = iid ∧ e.status = "queued" ∧
      (create_image tok img iid now s).state.images = s.images ++ [e] ∧
      (get_image tok iid ((create_image tok img iid now s).state)).result =
        .ok e) ∧
    (∃ e, (create_volume tok vol vid s).result = .ok e ∧
      e.id = vid ∧ e.status = "available" ∧
      (create_volume tok vol vid s).state.volumes = s.volumes ++ [e] ∧
      (get_volume tok vid ((create_volume tok vol vid s).state)).result =
        .ok e) ∧
    (∃ e, (create_server tok srv sid s).result = .ok e ∧
      e.id = sid ∧ e.status = "BUILD" ∧
      (create_server tok srv sid s).state.servers = s.servers ++ [e] ∧
      (get_server tok sid ((create_server tok srv sid s).state)).result =
        .ok e) := by
  refine ⟨?_, ?_, ?_⟩
  · refine ⟨{ id := iid, name := img.name, status := "queued",
              size := img.size, visibility := img.visibility,
              container_format := img.container_format,
              disk_format := img.disk_format, created_at := now },
      ?_, rfl, rfl, ?_, ?_⟩
    · unfold create_image; rw [htok]
    · unfold create_image; rw [htok]
    · unfold create_image get_image
      rw [htok]
      dsimp only
      rw [htok]
      dsimp only
      have hnone : s.images.find? (fun x => x.id == iid) = none :=
        List.find?_eq_none.mpr fun x hx => by simp [hif x hx]
      rw [find?_append_of_none s.images _ _ hnone (by simp)]
  · refine ⟨{ id := vid, name := vol.name, size := vol.size,
              status := "available" }, ?_, rfl, rfl, ?_, ?_⟩
    · unfold create_volume; rw [htok]
    · unfold create_volume; rw [htok]
    · unfold create_volume get_volume
      rw [htok]
      dsimp only
      rw [htok]
      dsimp only
      have hnone : s.volumes.find? (fun x => x.id == vid) = none :=
        List.find?_eq_none.mpr fun x hx => by simp [hvf x hx]
      rw [find?_append_of_none s.volumes _ _ hnone (by simp)]
  · refine ⟨{ id := sid, name := srv.name, status := "BUILD",
              image_id := some srv.image_id, flavor_id := srv.flavor_id },
      ?_, rfl, rfl, ?_, ?_⟩
    · unfold create_server; rw [htok]
    · unfold create_server; rw [htok]
    · unfold create_server get_server
      rw [htok]
      dsimp only
      rw [htok]
      dsimp only
      have hnone : s.servers.find? (fun x => x.id == sid) = none :=
        List.find?_eq_none.mpr fun x hx => by simp [hsf x hx]
      rw [find?_append_of_none s.servers _ _ hnone (by simp)]

/-- A concrete image-create input for the witnesses. -/
def imgInW : ImageIn :=
  { name := "Ubuntu", size := 10, visibility := "private",
    container_format := "bare", disk_format := "qcow2" }

/-- A concrete volume-create input for the witnesses. -/
def volInW : VolumeIn := { name := "data", size := 2 }

/-- A concrete server-create input for the witnesses. -/
def srvInW : ServerIn :=
  { name := "web", image_id := "img-0", flavor_id := none }

theorem create_get_roundtrip_witness :
    (get_image (some "tok-1") "img-9"
      ((create_image (some "tok-1") imgInW "img-9" "t5" stAuth).state)).result =
      .ok ⟨"img-9", "Ubuntu", "queued", 10, "private", "bare", "qcow2", "t5"⟩ := by
  obtain ⟨⟨e, he1, he2, he3, he4, he5⟩, hvolPart, hsrvPart⟩ :=
    create_get_roundtrip (some "tok-1") stAuth imgInW volInW srvInW
      "img-9" "vol-9" "srv-9" "t5" rfl (by decide) (by decide) (by decide)
  have h2 : (create_image (some "tok-1") imgInW "img-9" "t5" stAuth).result =
      .ok ⟨"img-9", "Ubuntu", "queued", 10, "private", "bare", "qcow2", "t5"⟩ :=
    rfl
  have he : e = ⟨"img-9", "Ubuntu", "queued", 10, "private", "bare", "qcow2",
      "t5"⟩ :=
    (Except.ok.inj (h2.symm.trans he1)).symm
  rw [← he]
  exact he5

-- ## Lemmas: the delete/detach handlers in closed form

theorem delete_image_cases (tok : Option String) (i : String) (s : St)
    (htok : require_token tok s.tokens = .ok ()) :
    delete_image tok i s =
      if (s.images.filter fun im => im.id ≠ i).length = s.images.length then
        ⟨.error .NotFound,
         { s with images := s.images.filter fun im => im.id ≠ i },
         persist_all { s with images := s.images.filter fun im => im.id ≠ i }⟩
      else
        ⟨.ok "Deleted",
         { s with images := s.images.filter fun im => im.id ≠ i },
         persist_all { s with images := s.images.filter fun im => im.id ≠ i }⟩ := by
  unfold delete_image
  rw [htok]

theorem delete_volume_cases (tok : Option String) (i : String) (s : St)
    (htok : require_token tok s.tokens = .ok ()) :
    delete_volume tok i s =
      if (s.volumes.filter fun v => v.id ≠ i).length = s.volumes.length then
        ⟨.error .NotFound,
         { s with volumes := s.volumes.filter fun v => v.id ≠ i },
         persist_all { s with volumes := s.volumes.filter fun v => v.id ≠ i }⟩
      else
        ⟨.ok "Deleted",
         { s with volumes := s.volumes.filter fun v => v.id ≠ i },
         persist_all { s with volumes := s.volumes.filter fun v => v.id ≠ i }⟩ := by
  unfold delete_volume
  rw [htok]

theorem delete_server_cases (tok : Option String) (i : String) (s : St)
    (htok : require_token tok s.tokens = .ok ()) :
    delete_server tok i s =
      if (s.servers.filter fun sv => sv.id ≠ i).length = s.servers.length then
        ⟨.error .NotFound,
         { s with servers := s.servers.filter fun sv => sv.id ≠ i },
         persist_all { s with servers := s.servers.filter fun sv => sv.id ≠ i }⟩
      else
        ⟨.ok "Deleted",
         { s with servers := s.servers.filter fun sv => sv.id ≠ i },
         persist_all { s with servers := s.servers.filter fun sv => sv.id ≠ i }⟩ := by
  unfold delete_server
  rw [htok]

theorem detach_volume_cases (tok : Option String) (sid aid : String) (s : St)
    (htok : require_token tok s.tokens = .ok ()) :
    detach_volume tok sid aid s =
      if (s.attachments.filter
            fun a => ¬(a.serverId = sid ∧ a.id = aid)).length =
          s.attachments.length then
        ⟨.error .NotFound,
         { s with
            attachments := s.attachments.filter
              fun a => ¬(a.serverId = sid ∧ a.id = aid) },
         persist_all
           { s with
              attachments := s.attachments.filter
                fun a => ¬(a.serverId = sid ∧ a.id = aid) }⟩
      else
        ⟨.ok (),
         { s with
            attachments := s.attachments.filter
              fun a => ¬(a.serverId = sid ∧ a.id = aid) },
         persist_all
           { s with
              attachments := s.attachments.filter
                fun a => ¬(a.serverId = sid ∧ a.id = aid) }⟩ := by
  unfold detach_volume
  rw [htok]

-- ## C6: delete semantics per collection

/-- **C6.**  For each collection, deleting a present id removes exactly
that one entity (given unique ids), after which `get` and a second
`delete` of the id both answer `NotFound`; deleting an absent id answers
`NotFound`. -/
theorem delete_semantics (tok : Option String) (s : St) (i : String)
    (htok : require_token tok s.tokens = .ok ()) :
    ((∃ im ∈ s.images, im.id = i) → (s.images.map Image.id).Nodup →
      (delete_image tok i s).result = .ok "Deleted" ∧
      (delete_image tok i s).state.images.length + 1 = s.images.length ∧
      (∀ im ∈ s.images, im.id ≠ i → im ∈ (delete_image tok i s).state.images) ∧
      (∀ im ∈ (delete_image tok i s).state.images, im ∈ s.images) ∧
      (get_image tok i (delete_image tok i s).state).result =
        .error .NotFound ∧
      (delete_image tok i (delete_image tok i s).state).result =
        .error .NotFound) ∧
    ((∀ im ∈ s.images, im.id ≠ i) →
      (delete_image tok i s).result = .error .NotFound) ∧
    ((∃ v ∈ s.volumes, v.id = i) → (s.volumes.map Volume.id).Nodup →
      (delete_volume tok i s).result = .ok "Deleted" ∧
      (delete_volume tok i s).state.volumes.length + 1 = s.volumes.length ∧
      (∀ v ∈ s.volumes, v.id ≠ i → v ∈ (delete_volume tok i s).state.volumes) ∧
      (∀ v ∈ (delete_volume tok i s).state.volumes, v ∈ s.volumes) ∧
      (get_volume tok i (delete_volume tok i s).state).result =
        .error .NotFound ∧
      (delete_volume tok i (delete_volume tok i s).state).result =
        .error .NotFound) ∧
    ((∀ v ∈ s.volumes, v.id ≠ i) →
      (delete_volume tok i s).result = .error .NotFound) ∧
    ((∃ sv ∈ s.servers, sv.id = i) → (s.servers.map Server.id).Nodup →
      (delete_server tok i s).result = .ok "Deleted" ∧
      (delete_server tok i s).state.servers.length + 1 = s.servers.length ∧
      (∀ sv ∈ s.servers, sv.id ≠ i →
        sv ∈ (delete_server tok i s).state.servers) ∧
      (∀ sv ∈ (delete_server tok i s).state.servers, sv ∈ s.servers) ∧
      (get_server tok i (delete_server tok i s).state).result =
        .error .NotFound ∧
      (delete_server tok i (delete_server tok i s).state).result =
        .error .NotFound) ∧
    ((∀ sv ∈ s.servers, sv.id ≠ i) →
      (delete_server tok i s).result = .error .NotFound) := by
  refine ⟨?_, ?_, ?_, ?_, ?_, ?_⟩
  · intro hmem hnd
    obtain ⟨x, hx, hxi⟩ := hmem
    have hlen := length_filter_ne_of_mem Image.id i s.images hnd x hx hxi
    have hne : (s.images.filter fun im => im.id ≠ i).length ≠
        s.images.length := by omega
    have hd := delete_image_cases tok i s htok
    rw [if_neg hne] at hd
    refine ⟨?_, ?_, ?_, ?_, ?_, ?_⟩
    · rw [hd]
    · rw [hd]; exact hlen
    · intro im him hne2
      rw [hd]
      exact List.mem_filter.mpr ⟨him, by simp [hne2]⟩
    · intro im him
      rw [hd] at him
      exact (List.mem_filter.mp him).1
    · rw [hd]
      unfold get_image
      dsimp only
      rw [htok]
      dsimp only
      have hnone : ((s.images.filter fun im => im.id ≠ i).find?
          fun im => im.id == i) = none :=
        List.find?_eq_none.mpr fun x2 hx2 => by
          simp [filter_ne_removes Image.id i s.images x2 hx2]
      rw [hnone]
    · rw [hd]
      have hidem : ((s.images.filter fun im => im.id ≠ i).filter
          fun im => im.id ≠ i) = s.images.filter fun im => im.id ≠ i :=
        filter_ne_no_match Image.id i _ (filter_ne_removes Image.id i s.images)
      have hd2 := delete_image_cases tok i
        { s with images := s.images.filter fun im => im.id ≠ i } htok
      dsimp only
      rw [hd2]
      dsimp only
      rw [hidem, if_pos rfl]
  · intro hnone
    have heq := filter_ne_no_match Image.id i s.images hnone
    have hd := delete_image_cases tok i s htok
    rw [heq] at hd
    rw [if_pos rfl] at hd
    rw [hd]
  · intro hmem hnd
    obtain ⟨x, hx, hxi⟩ := hmem
    have hlen := length_filter_ne_of_mem Volume.id i s.volumes hnd x hx hxi
    have hne : (s.volumes.filter fun v => v.id ≠ i).length ≠
        s.volumes.length := by omega
    have hd := delete_volume_cases tok i s htok
    rw [if_neg hne] at hd
    refine ⟨?_, ?_, ?_, ?_, ?_, ?_⟩
    · rw [hd]
    · rw [hd]; exact hlen
    · intro v hv hne2
      rw [hd]
      exact List.mem_filter.mpr ⟨hv, by simp [hne2]⟩
    · intro v hv
      rw [hd] at hv
      exact (List.mem_filter.mp hv).1
    · rw [hd]
      unfold get_volume
      dsimp only
      rw [htok]
      dsimp only
      have hnone : ((s.volumes.filter fun v => v.id ≠ i).find?
          fun v => v.id == i) = none :=
        List.find?_eq_none.mpr fun x2 hx2 => by
          simp [filter_ne_removes Volume.id i s.volumes x2 hx2]
      rw [hnone]
    · rw [hd]
      have hidem : ((s.volumes.filter fun v => v.id ≠ i).filter
          fun v => v.id ≠ i) = s.volumes.filter fun v => v.id ≠ i :=
        filter_ne_no_match Volume.id i _ (filter_ne_removes Volume.id i s.volumes)
      have hd2 := delete_volume_cases tok i
        { s with volumes := s.volumes.filter fun v => v.id ≠ i } htok
      dsimp only
      rw [hd2]
      dsimp only
      rw [hidem, if_pos rfl]
  · intro hnone
    have heq := filter_ne_no_match Volume.id i s.volumes hnone
    have hd := delete_volume_cases tok i s htok
    rw [heq] at hd
    rw [if_pos rfl] at hd
    rw [hd]
  · intro hmem hnd
    obtain ⟨x, hx, hxi⟩ := hmem
    have hlen := length_filter_ne_of_mem Server.id i s.servers hnd x hx hxi
    have hne : (s.servers.filter fun sv => sv.id ≠ i).length ≠
        s.servers.length := by omega
    have hd := delete_server_cases tok i s htok
    rw [if_neg hne] at hd
    refine ⟨?_, ?_, ?_, ?_, ?_, ?_⟩
    · rw [hd]
    · rw [hd]; exact hlen
    · intro sv hsv hne2
      rw [hd]
      exact List.mem_filter.mpr ⟨hsv, by simp [hne2]⟩
    · intro sv hsv
      rw [hd] at hsv
      exact (List.mem_filter.mp hsv).1
    · rw [hd]
      unfold get_server
      dsimp only
      rw [htok]
      dsimp only
      have hnone : ((s.servers.filter fun sv => sv.id ≠ i).find?
          fun sv => sv.id == i) = none :=
        List.find?_eq_none.mpr fun x2 hx2 => by
          simp [filter_ne_removes Server.id i s.servers x2 hx2]
      rw [hnone]
    · rw [hd]
      have hidem : ((s.servers.filter fun sv => sv.id ≠ i).filter
          fun sv => sv.id ≠ i) = s.servers.filter fun sv => sv.id ≠ i :=
        filter_ne_no_match Server.id i _ (filter_ne_removes Server.id i s.servers)
      have hd2 := delete_server_cases tok i
        { s with servers := s.servers.filter fun sv => sv.id ≠ i } htok
      dsimp only
      rw [hd2]
      dsimp only
      rw [hidem, if_pos rfl]
  · intro hnone
    have heq := filter_ne_no_match Server.id i s.servers hnone
    have hd := delete_server_cases tok i s htok
    rw [heq] at hd
    rw [if_pos rfl] at hd
    rw [hd]

theorem delete_semantics_witness :
    (delete_image (some "tok-1") "img-0" stAuth).result = .ok "Deleted" ∧
    (get_image (some "tok-1") "img-0"
      (delete_image (some "tok-1") "img-0" stAuth).state).result =
      .error ApiError.NotFound ∧
    (delete_image (some "tok-1") "img-0"
      (delete_image (some "tok-1") "img-0" stAuth).state).result =
      .error ApiError.NotFound ∧
    (delete_volume (some "tok-1") "vol-404" stAuth).result =
      .error ApiError.NotFound := by
  have h := delete_semantics (some "tok-1") stAuth "img-0" rfl
  obtain ⟨h1, h2, h3, h4, h5, h6⟩ := h.1 (by decide) (by decide)
  have h7 := delete_semantics (some "tok-1") stAuth "vol-404" rfl
  exact ⟨h1, h5, h6, h7.2.2.2.1 (by decide)⟩

-- ## C7: the flush contract

/-- C7 as stated is false on one count: the store holds six collections
(users, tokens, images, volumes, servers, attachments) and `persist_all`
writes all six of them, not five. -/
theorem flush_writes_six_collections_not_five :
    (persist_all st0).length = 6 ∧ (persist_all st0).length ≠ 5 :=
  ⟨rfl, by decide⟩

/-- **C7 (amended).**  `flush` writes all six collections (users,
tokens, images, volumes, servers, attachments) unconditionally, and
every mutating operation (entity create, entity delete, token issue,
token revoke, attach, detach) performs, as its one flush, a full
`persist_all` of its final state before returning success to the
caller. -/
theorem flush_contract (s : St) :
    persist_all s =
      [.users s.users, .tokens s.tokens, .images s.images,
       .volumes s.volumes, .servers s.servers, .attachments s.attachments] ∧
    (∀ tok img newId now e,
      (create_image tok img newId now s).result = .ok e →
      (create_image tok img newId now s).saves =
        persist_all (create_image tok img newId now s).state) ∧
    (∀ tok vol newId e,
      (create_volume tok vol newId s).result = .ok e →
      (create_volume tok vol newId s).saves =
        persist_all (create_volume tok vol newId s).state) ∧
    (∀ tok srv newId e,
      (create_server tok srv newId s).result = .ok e →
      (create_server tok srv newId s).saves =
        persist_all (create_server tok srv newId s).state) ∧
    (∀ tok i e,
      (delete_image tok i s).result = .ok e →
      (delete_image tok i s).saves =
        persist_all (delete_image tok i s).state) ∧
    (∀ tok i e,
      (delete_volume tok i s).result = .ok e →
      (delete_volume tok i s).saves =
        persist_all (delete_volume tok i s).state) ∧
    (∀ tok i e,
      (delete_server tok i s).result = .ok e →
      (delete_server tok i s).saves =
        persist_all (delete_server tok i s).state) ∧
    (∀ body nt r,
      (get_token body nt s).result = .ok r →
      (get_token body nt s).saves = persist_all (get_token body nt s).state) ∧
    (∀ tok r,
      (logout tok s).result = .ok r →
      (logout tok s).saves = persist_all (logout tok s).state) ∧
    (∀ tok sid body newId now a,
      (attach_volume tok sid body newId now s).result = .ok a →
      (attach_volume tok sid body newId now s).saves =
        persist_all (attach_volume tok sid body newId now s).state) ∧
    (∀ tok sid aid,
      (detach_volume tok sid aid s).result = .ok () →
      (detach_volume tok sid aid s).saves =
        persist_all (detach_volume tok sid aid s).state) := by
  refine ⟨rfl, ?_, ?_, ?_, ?_, ?_, ?_, ?_, ?_, ?_, ?_⟩
  · intro tok img newId now e h
    revert h
    unfold create_image
    cases require_token tok s.tokens with
    | error e2 => intro h; exact absurd h (by simp)
    | ok u => intro h; rfl
  · intro tok vol newId e h
    revert h
    unfold create_volume
    cases require_token tok s.tokens with
    | error e2 => intro h; exact absurd h (by simp)
    | ok u => intro h; rfl
  · intro tok srv newId e h
    revert h
    unfold create_server
    cases require_token tok s.tokens with
    | error e2 => intro h; exact absurd h (by simp)
    | ok u => intro h; rfl
  · intro tok i e h
    revert h
    unfold delete_image
    cases require_token tok s.tokens with
    | error e2 => intro h; exact absurd h (by simp)
    | ok u =>
      dsimp only
      split
      · intro h; exact absurd h (by simp)
      · intro h; rfl
  · intro tok i e h
    revert h
    unfold delete_volume
    cases require_token tok s.tokens with
    | error e2 => intro h; exact absurd h (by simp)
    | ok u =>
      dsimp only
      split
      · intro h; exact absurd h (by simp)
      · intro h; rfl
  · intro tok i e h
    revert h
    unfold delete_server
    cases require_token tok s.tokens with
    | error e2 => intro h; exact absurd h (by simp)
    | ok u =>
      dsimp only
      split
      · intro h; exact absurd h (by simp)
      · intro h; rfl
  · intro body nt r h
    obtain ⟨_, _, username, user, _, _, _, _, hstate, hsaves⟩ :=
      get_token_ok_parts body nt s r h
    rw [hstate, hsaves]
  · intro tok r h
    cases tok <;> rfl
  · intro tok sid body newId now a h
    obtain ⟨_, _, _, _, _, hstate, hsaves⟩ :=
      attach_volume_ok_parts tok sid body newId now s a h
    rw [hstate, hsaves]
  · intro tok sid aid h
    revert h
    unfold detach_volume
    cases require_token tok s.tokens with
    | error e2 => intro h; exact absurd h (by simp)
    | ok u =>
      dsimp only
      split
      · intro h; exact absurd h (by simp)
      · intro h; rfl

theorem flush_contract_witness :
    (create_image (some "tok-1") imgInW "img-9" "t5" stAuth).saves =
      persist_all (create_image (some "tok-1") imgInW "img-9" "t5" stAuth).state :=
  (flush_contract stAuth).2.1 (some "tok-1") imgInW "img-9" "t5"
    ⟨"img-9", "Ubuntu", "queued", 10, "private", "bare", "qcow2", "t5"⟩ rfl

-- ## C8: attach input validation and creation

/-- C8 as stated is false: with a valid token and no existing
attachments (so no duplicate pair), a body that does not lack
`volumeId` — the key is present, with value `""` — still fails with
`BadRequest` instead of creating an attachment, because the handler
tests truthiness of the extracted value rather than key presence. -/
theorem attach_requirements_counterexample :
    (JFields.cons "volumeId" (.str "") .nil).get? "volumeId" =
      some (.str "") ∧
    stAuth.attachments = [] ∧
    (attach_volume (some "tok-1") "s1" (.cons "volumeId" (.str "") .nil)
        "att-1" "t1" stAuth).result = .error ApiError.BadRequest :=
  ⟨rfl, rfl, rfl⟩

/-- Whenever the extracted volume id is falsy, attach short-circuits to
`BadRequest` right after the credential gate. -/
theorem attach_volume_badrequest_of_falsy (tok : Option String)
    (sid : String) (body : JFields) (newId now : String) (s : St)
    (hfalsy : optTruthy
      (pyOr (body.get? "volumeId") (body.get? "volume_id")) = false) :
    attach_volume tok sid body newId now s =
      match require_token tok s.tokens with
      | .error e => ⟨.error e, s, []⟩
      | .ok _ => ⟨.error .BadRequest, s, []⟩ := by
  unfold attach_volume
  cases require_token tok s.tokens with
  | error e => rfl
  | ok u =>
    dsimp only
    rw [if_pos hfalsy]

/-- **C8 (amended).**  For every attach call with a valid token: if the
body lacks both `volumeId` and `volume_id` — and more generally whenever
the extracted value is falsy — the operation fails with `BadRequest`;
otherwise (the extracted value is truthy), when no duplicate
(serverId, volumeId) pair exists, it creates an attachment with the
fresh id, the current timestamp, and device defaulting to `/dev/vdb`
when unspecified. -/
theorem attach_requirements (tok : Option String) (sid : String)
    (body : JFields) (newId now : String) (s : St)
    (htok : require_token tok s.tokens = .ok ()) :
    (body.get? "volumeId" = none → body.get? "volume_id" = none →
      (attach_volume tok sid body newId now s).result = .error .BadRequest) ∧
    (optTruthy (pyOr (body.get? "volumeId") (body.get? "volume_id")) = false →
      (attach_volume tok sid body newId now s).result = .error .BadRequest) ∧
    (∀ v, pyOr (body.get? "volumeId") (body.get? "volume_id") = some v →
      v.truthy = true →
      (¬∃ x ∈ s.attachments, x.serverId = sid ∧ x.volumeId = v) →
      (attach_volume tok sid body newId now s).result =
        .ok { id := newId, serverId := sid, volumeId := v,
              device := (body.get? "device").getD (.str "/dev/vdb"),
              attached_at := now } ∧
      (attach_volume tok sid body newId now s).state =
        { s with attachments := s.attachments ++
            [{ id := newId, serverId := sid, volumeId := v,
               device := (body.get? "device").getD (.str "/dev/vdb"),
               attached_at := now }] } ∧
      (body.get? "device" = none →
        (body.get? "device").getD (.str "/dev/vdb") = .str "/dev/vdb")) := by
  refine ⟨?_, ?_, ?_⟩
  · intro h1 h2
    have hfalsy : optTruthy
        (pyOr (body.get? "volumeId") (body.get? "volume_id")) = false := by
      rw [h1, h2]; rfl
    rw [attach_volume_badrequest_of_falsy tok sid body newId now s hfalsy, htok]
  · intro hfalsy
    rw [attach_volume_badrequest_of_falsy tok sid body newId now s hfalsy, htok]
  · intro v hv hvt hnodup
    have hscan : (s.attachments.any
        fun x => x.serverId == sid && x.volumeId == v) = false := by
      rw [List.any_eq_false]
      intro x hx hpx
      simp only [Bool.and_eq_true, beq_iff_eq] at hpx
      exact hnodup ⟨x, hx, hpx.1, hpx.2⟩
    unfold attach_volume
    rw [htok]
    dsimp only
    rw [hv]
    rw [show optTruthy (some v) = v.truthy from rfl, hvt]
    simp only [Bool.true_eq_false, if_false]
    rw [hscan]
    refine ⟨rfl, rfl, fun hdev => by rw [hdev]; rfl⟩

theorem attach_requirements_witness :
    (attach_volume (some "tok-1") "s1" attachBody "att-1" "t1" stAuth).result =
      .ok ⟨"att-1", "s1", .str "v1", .str "/dev/vdb", "t1"⟩ ∧
    (attach_volume (some "tok-1") "s1" JFields.nil "att-1" "t1" stAuth).result =
      .error ApiError.BadRequest := by
  have h := attach_requirements (some "tok-1") "s1" attachBody "att-1" "t1"
    stAuth rfl
  have h2 := attach_requirements (some "tok-1") "s1" JFields.nil "att-1" "t1"
    stAuth rfl
  refine ⟨?_, h2.1 rfl rfl⟩
  exact (h.2.2 (.str "v1") rfl rfl (by simp [stAuth, st0, initSt])).1

-- ## C9: a falsy volumeId value is treated as an absent key

/-- `d.pop(k)`-style removal of a key from a JSON object body. -/
def JFields.removeKey : JFields → String → JFields
  | .nil, _ => .nil
  | .cons k v rest, key =>
    if k = key then rest.removeKey key else .cons k v (rest.removeKey key)

theorem JFields.get?_removeKey_self : ∀ (fs : JFields) (k : String),
    (fs.removeKey k).get? k = none
  | .nil, _ => rfl
  | .cons k2 v rest, k => by
    by_cases h : k2 = k
    · rw [JFields.removeKey, if_pos h]
      exact JFields.get?_removeKey_self rest k
    · rw [JFields.removeKey, if_neg h]
      rw [JFields.get?, if_neg h]
      exact JFields.get?_removeKey_self rest k

theorem JFields.get?_removeKey_ne : ∀ (fs : JFields) (k k2 : String),
    k2 ≠ k → (fs.removeKey k).get? k2 = fs.get? k2
  | .nil, _, _, _ => rfl
  | .cons k3 v rest, k, k2, h => by
    by_cases h3 : k3 = k
    · rw [JFields.removeKey, if_pos h3]
      rw [JFields.get?_removeKey_ne rest k k2 h]
      have hne : ¬k3 = k2 := by rw [h3]; exact fun hh => h hh.symm
      rw [JFields.get?, if_neg hne]
    · rw [JFields.removeKey, if_neg h3]
      rw [JFields.get?, JFields.get?]
      by_cases h2 : k3 = k2
      · rw [if_pos h2, if_pos h2]
      · rw [if_neg h2, if_neg h2]
        exact JFields.get?_removeKey_ne rest k k2 h

theorem pyOr_none_left (b : Option Json) : pyOr none b = b := rfl

theorem pyOr_left_falsy (a b : Option Json)
    (h : ∀ v, a = some v → v.truthy = false) : pyOr a b = b := by
  cases a with
  | none => rfl
  | some v =>
    rw [pyOr]
    rw [h v rfl]
    rfl

/-- **C9.**  A body carrying the `volumeId` key with a falsy value
behaves exactly as if the key were absent: removing the falsy-valued key
does not change the handler's behaviour at all, and whenever the
extracted value is falsy the call fails with `BadRequest` exactly as for
a body with both keys absent — because the check tests truthiness of the
extracted value, not key membership. -/
theorem attach_falsy_volumeId_as_absent (tok : Option String) (sid : String)
    (body : JFields) (newId now : String) (s : St) :
    ((∀ v, body.get? "volumeId" = some v → v.truthy = false) →
      attach_volume tok sid body newId now s =
        attach_volume tok sid (body.removeKey "volumeId") newId now s) ∧
    (optTruthy (pyOr (body.get? "volumeId") (body.get? "volume_id")) = false →
      attach_volume tok sid body newId now s =
        attach_volume tok sid
          ((body.removeKey "volumeId").removeKey "volume_id") newId now s) ∧
    (optTruthy (pyOr (body.get? "volumeId") (body.get? "volume_id")) = false →
      require_token tok s.tokens = .ok () →
      (attach_volume tok sid body newId now s).result = .error .BadRequest ∧
      (attach_volume tok sid body newId now s).state = s ∧
      (attach_volume tok sid body newId now s).saves = []) := by
  refine ⟨?_, ?_, ?_⟩
  · intro h
    unfold attach_volume
    rw [JFields.get?_removeKey_self body "volumeId",
        JFields.get?_removeKey_ne body "volumeId" "volume_id" (by decide),
        JFields.get?_removeKey_ne body "volumeId" "device" (by decide),
        pyOr_none_left,
        pyOr_left_falsy (body.get? "volumeId") (body.get? "volume_id") h]
  · intro hfalsy
    have hfalsy2 : optTruthy
        (pyOr (((body.removeKey "volumeId").removeKey "volume_id").get? "volumeId")
          (((body.removeKey "volumeId").removeKey "volume_id").get? "volume_id")) =
        false := by
      rw [JFields.get?_removeKey_ne (body.removeKey "volumeId") "volume_id"
            "volumeId" (by decide),
          JFields.get?_removeKey_self body "volumeId",
          JFields.get?_removeKey_self (body.removeKey "volumeId") "volume_id"]
      rfl
    rw [attach_volume_badrequest_of_falsy tok sid body newId now s hfalsy,
        attach_volume_badrequest_of_falsy tok sid
          ((body.removeKey "volumeId").removeKey "volume_id") newId now s hfalsy2]
  · intro hfalsy htok
    rw [attach_volume_badrequest_of_falsy tok sid body newId now s hfalsy, htok]
    exact ⟨rfl, rfl, rfl⟩

theorem attach_falsy_volumeId_as_absent_witness :
    attach_volume (some "tok-1") "s1" (.cons "volumeId" (.str "") .nil)
        "att-1" "t1" stAuth =
      attach_volume (some "tok-1") "s1"
        ((JFields.cons "volumeId" (.str "") .nil).removeKey "volumeId")
        "att-1" "t1" stAuth ∧
    (attach_volume (some "tok-1") "s1" (.cons "volumeId" (.str "") .nil)
        "att-1" "t1" stAuth).result = .error ApiError.BadRequest := by
  have h := attach_falsy_volumeId_as_absent (some "tok-1") "s1"
    (.cons "volumeId" (.str "") .nil) "att-1" "t1" stAuth
  exact ⟨h.1 (fun v hv => by injection hv with h2; rw [← h2]; rfl),
         (h.2.2 rfl rfl).1⟩

-- ## C10: a failed delete/detach leaves state unchanged but still flushes

/-- **C10.**  When a delete (images, volumes, servers) or detach finds
no matching entity, the in-memory collections are left unchanged and
`NotFound` is returned — but a full flush of all collections is still
performed before the error is raised: the flush is unconditional, not
restricted to the success path. -/
theorem failed_delete_still_flushes (tok : Option String) (s : St)
    (i sid aid : String)
    (htok : require_token tok s.tokens = .ok ()) :
    ((∀ im ∈ s.images, im.id ≠ i) →
      (delete_image tok i s).result = .error .NotFound ∧
      (delete_image tok i s).state = s ∧
      (delete_image tok i s).saves = persist_all s) ∧
    ((∀ v ∈ s.volumes, v.id ≠ i) →
      (delete_volume tok i s).result = .error .NotFound ∧
      (delete_volume tok i s).state = s ∧
      (delete_volume tok i s).saves = persist_all s) ∧
    ((∀ sv ∈ s.servers, sv.id ≠ i) →
      (delete_server tok i s).result = .error .NotFound ∧
      (delete_server tok i s).state = s ∧
      (delete_server tok i s).saves = persist_all s) ∧
    ((∀ a ∈ s.attachments, ¬(a.serverId = sid ∧ a.id = aid)) →
      (detach_volume tok sid aid s).result = .error .NotFound ∧
      (detach_volume tok sid aid s).state = s ∧
      (detach_volume tok sid aid s).saves = persist_all s) := by
  refine ⟨?_, ?_, ?_, ?_⟩
  · intro hnone
    have heq := filter_ne_no_match Image.id i s.images hnone
    have hd := delete_image_cases tok i s htok
    rw [heq] at hd
    rw [if_pos rfl] at hd
    rw [hd]
    exact ⟨rfl, rfl, rfl⟩
  · intro hnone
    have heq := filter_ne_no_match Volume.id i s.volumes hnone
    have hd := delete_volume_cases tok i s htok
    rw [heq] at hd
    rw [if_pos rfl] at hd
    rw [hd]
    exact ⟨rfl, rfl, rfl⟩
  · intro hnone
    have heq := filter_ne_no_match Server.id i s.servers hnone
    have hd := delete_server_cases tok i s htok
    rw [heq] at hd
    rw [if_pos rfl] at hd
    rw [hd]
    exact ⟨rfl, rfl, rfl⟩
  · intro hnone
    have heq : (s.attachments.filter
        fun a => ¬(a.serverId = sid ∧ a.id = aid)) = s.attachments :=
      List.filter_eq_self.mpr fun a ha => by
        simp only [decide_eq_true_eq]
        exact hnone a ha
    have hd := detach_volume_cases tok sid aid s htok
    rw [heq] at hd
    rw [if_pos rfl] at hd
    rw [hd]
    exact ⟨rfl, rfl, rfl⟩

theorem failed_delete_still_flushes_witness :
    (delete_image (some "tok-1") "img-404" stAuth).result =
      .error ApiError.NotFound ∧
    (delete_image (some "tok-1") "img-404" stAuth).state = stAuth ∧
    (delete_image (some "tok-1") "img-404" stAuth).saves =
      persist_all stAuth ∧
    (detach_volume (some "tok-1") "s1" "att-404" stAuth).saves =
      persist_all stAuth := by
  have h := failed_delete_still_flushes (some "tok-1") stAuth "img-404"
    "s1" "att-404" rfl
  obtain ⟨h1, h2, h3⟩ := h.1 (by decide)
  exact ⟨h1, h2, h3, (h.2.2.2 (by decide)).2.2⟩
